import Mathlib

/-!
Verification development for the web_scraper repository.

The repository gates every browser navigation through a robots.txt
compliance layer built on Python urllib.robotparser:
  src/playwright/async_/async_playwright_scraper.py
    _extract_domain_name_from_url, AsyncPlaywrightScrapper._get_robot_rules,
    AsyncPlaywrightScrapper.navigate_to
The robots.txt parsing and matching itself is urllib/robotparser.py and the
URL normalization is urllib/parse.py from the Python standard library, both
of which the scraper calls directly; they are embedded here as well.

Strings are modelled as lists of characters (`Str`); the embedding covers
ASCII inputs, which is the fragment exercised by the scraper (robots.txt
bodies, URL paths, user agents). Machine floats do not occur on the paths
modelled here: crawl delays and overrides are integers in every modelled
branch.
-/

namespace WebScraper

abbrev Str := List Char

/-- Coerce a Lean string literal to the character-list representation. -/
def pyStr (s : String) : Str := s.data

/-- ASCII whitespace recognized by Python str.strip(). -/
def isPySpace (c : Char) : Bool :=
  c = ' ' || c = '\t' || c = '\n' || c = '\x0b' || c = '\x0c' || c = '\r'

/-- Python str.strip(): drop whitespace from both ends. -/
def pyStrip (l : Str) : Str :=
  ((l.dropWhile isPySpace).reverse.dropWhile isPySpace).reverse

/-- ASCII lower-casing of one character, as Python str.lower() on ASCII. -/
def lowerChar (c : Char) : Char :=
  if 'A' ≤ c ∧ c ≤ 'Z' then Char.ofNat (c.toNat + 32) else c

/-- Python str.lower() restricted to ASCII strings. -/
def pyLower (l : Str) : Str := l.map lowerChar

def isAsciiDigit (c : Char) : Bool := '0' ≤ c && c ≤ '9'

def isAsciiAlpha (c : Char) : Bool :=
  ('a' ≤ c && c ≤ 'z') || ('A' ≤ c && c ≤ 'Z')

/-- Python str.isdigit() on ASCII: nonempty and all characters are digits. -/
def pyIsdigit (l : Str) : Bool := !l.isEmpty && l.all isAsciiDigit

/-- Python int() on a digit string (used only after an isdigit() guard). -/
def pyToNat (l : Str) : Nat :=
  l.foldl (fun acc c => acc * 10 + (c.toNat - '0'.toNat)) 0

/-- Python a.startswith(b) for strings. -/
def startswith (pat l : Str) : Bool :=
  match pat, l with
  | [], _ => true
  | _ :: _, [] => false
  | p :: ps, c :: cs => p = c && startswith ps cs

/-- Python substring containment: `needle in haystack`. -/
def containsSub (needle haystack : Str) : Bool :=
  match haystack with
  | [] => needle.isEmpty
  | _ :: rest => startswith needle haystack || containsSub needle rest

/-- Index of the first occurrence of a character, Python str.find. -/
def findChar (c : Char) (l : Str) : Option Nat :=
  match l with
  | [] => none
  | x :: rest =>
      if x = c then some 0
      else match findChar c rest with
           | some i => some (i + 1)
           | none => none

/-- Index of the last occurrence of a character, Python str.rfind. -/
def rfindChar (c : Char) (l : Str) : Option Nat :=
  match findChar c l.reverse with
  | some i => some (l.length - 1 - i)
  | none => none

/-- Python s.split(sep, 1): the part before the first separator, and the
part after it when the separator occurs. -/
def splitOnce (sep : Char) (l : Str) : Str × Option Str :=
  match l with
  | [] => ([], none)
  | c :: rest =>
      if c = sep then ([], some rest)
      else
        match splitOnce sep rest with
        | (pre, post) => (c :: pre, post)

/-- Python s.split(sep): always yields at least one piece. -/
def splitAllOn (sep : Char) : Str → List Str
  | [] => [[]]
  | c :: rest =>
      match splitAllOn sep rest with
      | [] => [[c]]
      | s :: ss => if c = sep then [] :: s :: ss else (c :: s) :: ss

/-- Core of str.splitlines: the final segment is always emitted, so an
input ending in a line break produces a trailing empty segment here. -/
def splitlinesCore : Str → List Str
  | [] => [[]]
  | '\r' :: '\n' :: rest => [] :: splitlinesCore rest
  | '\n' :: rest => [] :: splitlinesCore rest
  | '\r' :: rest => [] :: splitlinesCore rest
  | c :: rest =>
      match splitlinesCore rest with
      | [] => [[c]]
      | s :: ss => (c :: s) :: ss

/-- Python str.splitlines() for ASCII line breaks: no empty final line is
reported for input ending in a line break, and the empty string yields []. -/
def pySplitlines (l : Str) : List Str :=
  match l with
  | [] => []
  | _ =>
      let r := splitlinesCore l
      if r.getLast? = some [] then r.dropLast else r

/-- Value of an ASCII hex digit, when it is one. -/
def hexVal (c : Char) : Option Nat :=
  if '0' ≤ c ∧ c ≤ '9' then some (c.toNat - '0'.toNat)
  else if 'a' ≤ c ∧ c ≤ 'f' then some (c.toNat - 'a'.toNat + 10)
  else if 'A' ≤ c ∧ c ≤ 'F' then some (c.toNat - 'A'.toNat + 10)
  else none

/-- urllib.parse.unquote on ASCII data: each %XX escape with two hex digits
becomes the character with that code; a percent sign not followed by two
hex digits is kept verbatim (CPython leaves unmatched escapes alone). -/
def pyUnquote : Str → Str
  | [] => []
  | '%' :: a :: b :: rest =>
      match hexVal a, hexVal b with
      | some hi, some lo => Char.ofNat (hi * 16 + lo) :: pyUnquote rest
      | _, _ => '%' :: pyUnquote (a :: b :: rest)
  | c :: rest => c :: pyUnquote rest

/-- The _ALWAYS_SAFE set of urllib.parse: ASCII letters, digits, and the
four unreserved punctuation characters. -/
def isAlwaysSafe (c : Char) : Bool :=
  isAsciiAlpha c || isAsciiDigit c || c = '_' || c = '.' || c = '-' || c = '~'

def hexDigitUpper (n : Nat) : Char :=
  if n < 10 then Char.ofNat ('0'.toNat + n) else Char.ofNat ('A'.toNat + n - 10)

/-- urllib.parse.quote with the default safe set {slash} on ASCII data:
safe characters pass through, every other character becomes %XX with
upper-case hex. -/
def pyQuote (l : Str) : Str :=
  l.foldr
    (fun c acc =>
      if isAlwaysSafe c || c = '/' then c :: acc
      else '%' :: hexDigitUpper (c.toNat / 16) :: hexDigitUpper (c.toNat % 16) :: acc)
    []

/-- Characters valid in scheme names (scheme_chars in urllib/parse.py). -/
def isSchemeChar (c : Char) : Bool :=
  isAsciiAlpha c || isAsciiDigit c || c = '+' || c = '-' || c = '.'

/-- uses_params from urllib/parse.py. -/
def usesParams : List Str :=
  [pyStr "", pyStr "ftp", pyStr "hdl", pyStr "prospero", pyStr "http",
   pyStr "imap", pyStr "https", pyStr "shttp", pyStr "rtsp", pyStr "rtspu",
   pyStr "sip", pyStr "sips", pyStr "mms", pyStr "sftp", pyStr "tel"]

/-- uses_netloc from urllib/parse.py. -/
def usesNetloc : List Str :=
  [pyStr "", pyStr "ftp", pyStr "http", pyStr "gopher", pyStr "nntp",
   pyStr "telnet", pyStr "imap", pyStr "wais", pyStr "file", pyStr "mms",
   pyStr "https", pyStr "shttp", pyStr "snews", pyStr "prospero",
   pyStr "rtsp", pyStr "rtspu", pyStr "rsync", pyStr "svn",
   pyStr "svn+ssh", pyStr "sftp", pyStr "nfs", pyStr "git",
   pyStr "git+ssh", pyStr "ws", pyStr "wss"]

structure SplitResult where
  scheme : Str
  netloc : Str
  path : Str
  query : Str
  fragment : Str
deriving DecidableEq, Repr

structure ParseResult where
  scheme : Str
  netloc : Str
  path : Str
  params : Str
  query : Str
  fragment : Str
deriving DecidableEq, Repr

/-- _splitnetloc of urllib/parse.py: everything up to the first of
slash, question mark or hash is the netloc. -/
def splitnetloc (url : Str) : Str × Str :=
  (url.takeWhile (fun c => !(c = '/' || c = '?' || c = '#')),
   url.dropWhile (fun c => !(c = '/' || c = '?' || c = '#')))

/-- urllib.parse.urlsplit on ASCII input with default scheme and fragments
allowed. The WHATWG unsafe bytes (tab, CR, LF) are removed first; a scheme
is recognized when a colon at a positive index is preceded only by scheme
characters starting with a letter. The IPv6 bracket validation and the
non-ASCII NFKC netloc check of the source are vacuous on ASCII input
without brackets and are not represented. -/
def urlsplitAscii (url0 : Str) : SplitResult :=
  let url1 := url0.filter (fun c => !(c = '\t' || c = '\r' || c = '\n'))
  let (scheme, url2) :=
    match findChar ':' url1 with
    | some i =>
        if decide (0 < i) &&
           (match url1.head? with
            | some c => isAsciiAlpha c
            | none => false) &&
           (url1.take i).all isSchemeChar then
          (pyLower (url1.take i), url1.drop (i + 1))
        else ([], url1)
    | none => ([], url1)
  let (netloc, url3) :=
    if startswith (pyStr "//") url2 then splitnetloc (url2.drop 2)
    else ([], url2)
  let (url4, fragment) :=
    match splitOnce '#' url3 with
    | (pre, some post) => (pre, post)
    | (pre, none) => (pre, [])
  let (url5, query) :=
    match splitOnce '?' url4 with
    | (pre, some post) => (pre, post)
    | (pre, none) => (pre, [])
  { scheme := scheme, netloc := netloc, path := url5,
    query := query, fragment := fragment }

/-- _splitparams of urllib/parse.py: split the parameters off the last
path segment. -/
def splitparams (url : Str) : Str × Str :=
  match rfindChar '/' url with
  | some j =>
      match findChar ';' (url.drop j) with
      | some k => (url.take (j + k), url.drop (j + k + 1))
      | none => (url, [])
  | none =>
      match findChar ';' url with
      | some i => (url.take i, url.drop (i + 1))
      | none => (url, [])

/-- urllib.parse.urlparse on ASCII input. -/
def urlparseAscii (url : Str) : ParseResult :=
  let s := urlsplitAscii url
  let (path, params) :=
    if usesParams.contains s.scheme ∧ containsSub (pyStr ";") s.path then
      splitparams s.path
    else (s.path, [])
  { scheme := s.scheme, netloc := s.netloc, path := path,
    params := params, query := s.query, fragment := s.fragment }

/-- urllib.parse.urlunsplit. -/
def urlunsplitAscii (scheme netloc url query fragment : Str) : Str :=
  let url :=
    if !netloc.isEmpty ||
       (!scheme.isEmpty && usesNetloc.contains scheme &&
        !startswith (pyStr "//") url) then
      let url := if !url.isEmpty && !startswith (pyStr "/") url
                 then '/' :: url else url
      pyStr "//" ++ netloc ++ url
    else url
  let url := if !scheme.isEmpty then scheme ++ [':'] ++ url else url
  let url := if !query.isEmpty then url ++ ['?'] ++ query else url
  if !fragment.isEmpty then url ++ ['#'] ++ fragment else url

/-- urllib.parse.urlunparse. -/
def urlunparseAscii (p : ParseResult) : Str :=
  let url := if !p.params.isEmpty then p.path ++ [';'] ++ p.params else p.path
  urlunsplitAscii p.scheme p.netloc url p.query p.fragment

/-! ## urllib.robotparser

Embedding of urllib/robotparser.py: RuleLine, Entry and RobotFileParser
with parse, can_fetch, crawl_delay and request_rate. The last_checked
timestamp only matters through being zero or nonzero, so it is a Bool. -/

structure RuleLine where
  path : Str
  allowance : Bool
deriving DecidableEq, Repr

/-- RuleLine.__init__: an empty disallow value means allow all, and the
path is normalized by urlunparse(urlparse(path)) followed by quote. -/
def mkRuleLine (path : Str) (allowance : Bool) : RuleLine :=
  let allowance := if path = [] ∧ allowance = false then true else allowance
  let path := urlunparseAscii (urlparseAscii path)
  { path := pyQuote path, allowance := allowance }

/-- RuleLine.applies_to. -/
def ruleLineApplies (rl : RuleLine) (filename : Str) : Bool :=
  rl.path = pyStr "*" || startswith rl.path filename

structure REntry where
  useragents : List Str
  rulelines : List RuleLine
  delay : Option Nat
  req_rate : Option (Nat × Nat)
deriving DecidableEq, Repr

def emptyREntry : REntry :=
  { useragents := [], rulelines := [], delay := none, req_rate := none }

/-- Entry.applies_to: the user agent is cut at the first slash and
lower-cased; a catch-all agent always applies, otherwise substring
containment of the lower-cased agent decides. -/
def entryApplies (e : REntry) (useragent : Str) : Bool :=
  let ua := pyLower ((splitAllOn '/' useragent).headI)
  e.useragents.any (fun agent =>
    agent = pyStr "*" || containsSub (pyLower agent) ua)

/-- Entry.allowance: the first rule line that applies decides; with no
applicable rule line the path is allowed. -/
def entryAllowance (e : REntry) (filename : Str) : Bool :=
  match e.rulelines.find? (fun rl => ruleLineApplies rl filename) with
  | some rl => rl.allowance
  | none => true

structure RobotFileParser where
  entries : List REntry
  default_entry : Option REntry
  sitemaps : List Str
  disallow_all : Bool
  allow_all : Bool
  last_checked : Bool
deriving DecidableEq, Repr

/-- RobotFileParser.__init__ (the state of self.rp right after
`self.rp = RobotFileParser(robots_url)` in _get_robot_rules). -/
def freshRFP : RobotFileParser :=
  { entries := [], default_entry := none, sitemaps := [],
    disallow_all := false, allow_all := false, last_checked := false }

/-- RobotFileParser._add_entry: a catch-all entry becomes the default
entry when none is set yet, every other entry is appended. -/
def addEntry (rp : RobotFileParser) (e : REntry) : RobotFileParser :=
  if e.useragents.contains (pyStr "*") then
    match rp.default_entry with
    | none => { rp with default_entry := some e }
    | some _ => rp
  else { rp with entries := rp.entries ++ [e] }

/-- The body of the parse loop of RobotFileParser.parse for one line,
acting on (state, current entry, parser). -/
def parseLine (st : Nat × REntry × RobotFileParser) (line : Str) :
    Nat × REntry × RobotFileParser :=
  let (state, entry, rp) := st
  let (state, entry, rp) :=
    if line = [] then
      if state = 1 then (0, emptyREntry, rp)
      else if state = 2 then (0, emptyREntry, addEntry rp entry)
      else (state, entry, rp)
    else (state, entry, rp)
  let line := match findChar '#' line with
              | some i => line.take i
              | none => line
  let line := pyStrip line
  if line = [] then (state, entry, rp)
  else
    match splitOnce ':' line with
    | (_, none) => (state, entry, rp)
    | (k, some v) =>
        let key := pyLower (pyStrip k)
        let val := pyUnquote (pyStrip v)
        if key = pyStr "user-agent" then
          let (entry, rp) :=
            if state = 2 then (emptyREntry, addEntry rp entry)
            else (entry, rp)
          (1, { entry with useragents := entry.useragents ++ [val] }, rp)
        else if key = pyStr "disallow" then
          if state ≠ 0 then
            (2, { entry with rulelines := entry.rulelines ++ [mkRuleLine val false] }, rp)
          else (state, entry, rp)
        else if key = pyStr "allow" then
          if state ≠ 0 then
            (2, { entry with rulelines := entry.rulelines ++ [mkRuleLine val true] }, rp)
          else (state, entry, rp)
        else if key = pyStr "crawl-delay" then
          if state ≠ 0 then
            let entry := if pyIsdigit (pyStrip val)
                         then { entry with delay := some (pyToNat (pyStrip val)) }
                         else entry
            (2, entry, rp)
          else (state, entry, rp)
        else if key = pyStr "request-rate" then
          if state ≠ 0 then
            let entry :=
              match splitAllOn '/' val with
              | [a, b] =>
                  if pyIsdigit (pyStrip a) && pyIsdigit (pyStrip b) then
                    { entry with req_rate := some (pyToNat (pyStrip a), pyToNat (pyStrip b)) }
                  else entry
              | _ => entry
            (2, entry, rp)
          else (state, entry, rp)
        else if key = pyStr "sitemap" then
          (state, entry, { rp with sitemaps := rp.sitemaps ++ [val] })
        else (state, entry, rp)

/-- RobotFileParser.parse: modified() sets the timestamp, then the line
loop runs, and a trailing entry in state 2 is added. -/
def rfpParse (rp : RobotFileParser) (lines : List Str) : RobotFileParser :=
  let rp := { rp with last_checked := true }
  match lines.foldl parseLine (0, emptyREntry, rp) with
  | (state, entry, rp) => if state = 2 then addEntry rp entry else rp

/-- RobotFileParser.can_fetch. Until the file has been read, no url is
allowable; afterwards the url is unquoted, reduced to its path, params,
query and fragment, re-quoted, defaulted to the root path when empty, and
the first entry applying to the user agent decides (default entry last,
access granted when no entry applies). -/
def canFetch (rp : RobotFileParser) (useragent url : Str) : Bool :=
  if rp.disallow_all then false
  else if rp.allow_all then true
  else if !rp.last_checked then false
  else
    let parsed := urlparseAscii (pyUnquote url)
    let url := urlunparseAscii
      { scheme := [], netloc := [], path := parsed.path,
        params := parsed.params, query := parsed.query,
        fragment := parsed.fragment }
    let url := pyQuote url
    let url := if url = [] then pyStr "/" else url
    match rp.entries.find? (fun e => entryApplies e useragent) with
    | some e => entryAllowance e url
    | none =>
        match rp.default_entry with
        | some d => entryAllowance d url
        | none => true

/-- RobotFileParser.crawl_delay: None before the file was read, otherwise
the delay of the first applicable entry (default entry last), which may
itself be None. -/
def crawlDelay (rp : RobotFileParser) (useragent : Str) : Option Nat :=
  if !rp.last_checked then none
  else
    match rp.entries.find? (fun e => entryApplies e useragent) with
    | some e => e.delay
    | none =>
        match rp.default_entry with
        | some d => d.delay
        | none => none

/-- RobotFileParser.request_rate, same lookup shape as crawl_delay. -/
def requestRate (rp : RobotFileParser) (useragent : Str) : Option (Nat × Nat) :=
  if !rp.last_checked then none
  else
    match rp.entries.find? (fun e => entryApplies e useragent) with
    | some e => e.req_rate
    | none =>
        match rp.default_entry with
        | some d => d.req_rate
        | none => none

/-- Parse a robots.txt body the way _get_robot_rules does:
`self.rp.parse(content.splitlines())` on a fresh parser. -/
def parseBody (content : Str) : RobotFileParser :=
  rfpParse freshRFP (pySplitlines content)

/-! ## src/playwright/async_/async_playwright_scraper.py -/

/-- _extract_domain_name_from_url: the netloc of the parsed url, or the
first slash-separated piece of the path when the netloc is empty; then
the second-to-last dot-separated label when there are more than two,
otherwise the first. -/
def extractDomainNameFromUrl (url : Str) : Str :=
  let parsed := urlparseAscii url
  let domain := if parsed.netloc ≠ [] then parsed.netloc
                else (splitAllOn '/' parsed.path).headI
  let parts := splitAllOn '.' domain
  if parts.length > 2 then (parts.reverse.drop 1).headI
  else parts.headI

/-- The on-disk robots cache path used by _get_robot_rules:
os.path.join(PROJECT_ROOT, "web_scraper", "sites", domain_name,
f"{domain_name}_robots.txt"), with PROJECT_ROOT as a parameter. -/
def robotsTxtFilepath (projectRoot : Str) (domainName : Str) : Str :=
  projectRoot ++ pyStr "/web_scraper/sites/" ++ domainName ++ pyStr "/"
    ++ domainName ++ pyStr "_robots.txt"

/-- Exceptions that the modelled code can raise. UnboundLocalError is the
NameError subclass Python raises for a local read before assignment. -/
inductive PyError where
  | typeError (msg : String)
  | nameError (name : String)
  | unboundLocalError (name : String)
deriving DecidableEq, Repr

/-- Outcome of the aiohttp GET of robots.txt: a response with status and
body text, a timeout (asyncio.TimeoutError), or an aiohttp.ClientError. -/
inductive NetOutcome where
  | resp (status : Nat) (body : Str)
  | timeout
  | clientError
deriving DecidableEq, Repr

/-- self.request_rate after line 157: the parsed rate, or the integer 0
when request_rate returned None (`... or 0`). -/
inductive ReqRateVal where
  | rate (r : Nat × Nat)
  | zero
deriving DecidableEq, Repr

/-- The attributes _get_robot_rules leaves on the scraper when it returns
normally, together with its observable effects. -/
structure RobotRulesOk where
  rp : RobotFileParser
  request_rate : ReqRateVal
  crawl_delay : Nat
  fetched : Bool
  wroteDisk : Option Str
  warnings : Nat
deriving DecidableEq, Repr

/-- Result of one run of _get_robot_rules: a normal return, or an
exception that propagates to the caller, with the observable effects
(whether a network request was issued, how many warnings were logged)
that happened before the raise. -/
inductive ResolveResult where
  | ok (r : RobotRulesOk)
  | raised (e : PyError) (fetched : Bool) (warnings : Nat)
deriving DecidableEq, Repr

/-- Lines 156-159 of _get_robot_rules: request_rate gets `... or 0`, but
crawl_delay gets a bare int() of an optional value, so a robots body with
no Crawl-delay directive for the user agent raises TypeError. -/
def setRates (rp : RobotFileParser) (userAgent : Str) (fetched : Bool)
    (wrote : Option Str) (warnings : Nat) : ResolveResult :=
  let rr := match requestRate rp userAgent with
            | some r => ReqRateVal.rate r
            | none => ReqRateVal.zero
  match crawlDelay rp userAgent with
  | some d =>
      ResolveResult.ok
        { rp := rp, request_rate := rr, crawl_delay := d,
          fetched := fetched, wroteDisk := wrote, warnings := warnings }
  | none =>
      ResolveResult.raised
        (PyError.typeError "int() argument must not be NoneType") fetched warnings

/-- AsyncPlaywrightScrapper._get_robot_rules, as a function of the cached
file content for the domain (None when the file does not exist) and of
the network outcome.

With a cached file the content is parsed and no request is issued. With
no cached file the robots url is fetched: on HTTP 200 the body is parsed,
the finally block logs successfully (content is bound), and the body is
written to the cache file. On any other status a warning is logged and
`return None` is executed, but the finally block then evaluates an
f-string mentioning the local `content`, which was never assigned on this
path, so UnboundLocalError propagates instead of the return. On timeout
or client error the handler evaluates `e.__qualname__`, which does not
exist on exception instances (AttributeError), so e_tuple stays None and
the same finally block raises the same UnboundLocalError; the intended
warning in the `if e_tuple` branch is never logged. Both normal paths end
at lines 156-159 setting request_rate and crawl_delay. -/
def getRobotRules (userAgent : Str) (cached : Option Str)
    (net : NetOutcome) : ResolveResult :=
  match cached with
  | some content =>
      setRates (parseBody content) userAgent false none 0
  | none =>
      match net with
      | NetOutcome.resp status body =>
          if status = 200 then
            setRates (parseBody body) userAgent true (some body) 0
          else
            ResolveResult.raised (PyError.unboundLocalError "content") true 1
      | NetOutcome.timeout =>
          ResolveResult.raised (PyError.unboundLocalError "content") true 0
      | NetOutcome.clientError =>
          ResolveResult.raised (PyError.unboundLocalError "content") true 0

/-- _get_robot_rules seen through the disk cache: the cached content is
whatever the disk map holds at the path derived from the domain. -/
def resolveViaCache (projectRoot : Str) (disk : Str → Option Str)
    (domain userAgent : Str) (net : NetOutcome) : ResolveResult :=
  getRobotRules userAgent
    (disk (robotsTxtFilepath projectRoot (extractDomainNameFromUrl domain)))
    net

/-- Result of AsyncPlaywrightScrapper.navigate_to up to and including the
page.goto call: an exception, an early return after the robots warning,
or a navigation carrying the seconds slept beforehand. -/
inductive NavResult where
  | raised (e : PyError)
  | skipped (warnings : Nat)
  | navigated (slept : Int) (url : Str)
deriving DecidableEq, Repr

/-- The tail of the delay branch: delay = self.crawl_delay, then
`if delay > 0: sleep(delay)`. A crawl_delay still at its __init__ value
None makes `None > 0` raise TypeError. -/
def navDelayFromPolicy (crawl_delay : Option Int) (url : Str) : NavResult :=
  match crawl_delay with
  | none => NavResult.raised (PyError.typeError "NoneType not comparable to int")
  | some d => if d > 0 then NavResult.navigated d url else NavResult.navigated 0 url

/-- AsyncPlaywrightScrapper.navigate_to (lines 308-330), for the branches
whose inputs are integers. The module imports neither re nor math, so the
url-cleanup branch taken when "%2C" occurs in the url raises NameError at
re.sub, and the delay expression raises NameError at math.ceil whenever
crawl_override is truthy (the conditional expression evaluates
`crawl_override and int(math.ceil(crawl_override)) > 0` first, and the
right operand is reached exactly when crawl_override is truthy). The
robots check precedes the delay logic: a url refused by can_fetch logs a
warning and returns before any sleep or goto. The sleep happens only when
idx is not None and idx > 1. -/
def navigateTo (rp : RobotFileParser) (userAgent : Str)
    (crawl_delay : Option Int) (url : Str) (idx : Option Int)
    (crawl_override : Option Int) : NavResult :=
  if containsSub (pyStr "%2C") url then
    NavResult.raised (PyError.nameError "re")
  else if !canFetch rp userAgent url then
    NavResult.skipped 1
  else
    match idx with
    | some i =>
        if i > 1 then
          match crawl_override with
          | some c =>
              if c ≠ 0 then NavResult.raised (PyError.nameError "math")
              else navDelayFromPolicy crawl_delay url
          | none => navDelayFromPolicy crawl_delay url
        else NavResult.navigated 0 url
    | none => NavResult.navigated 0 url

/-! ## Interleaving model for concurrent _get_robot_rules calls

Under asyncio, control can only change tasks at await points. For one run
of _get_robot_rules with no cached file, the relevant phases are:
the synchronous prelude through the `os.path.exists` check (phase 0),
the suspension at `await session.get(robots_url, ...)` whose completion
is the network request (phase 1), and the synchronous tail that writes
the fetched body to the cache file (phase 2). Two tasks resolving the
same domain share the cache file and are interleaved by a schedule. -/

structure CacheRaceState where
  fileExists : Bool
  fetches : Nat
  pcA : Nat
  pcB : Nat
  loadedFromDiskA : Bool
  loadedFromDiskB : Bool
deriving DecidableEq, Repr

def initRaceState : CacheRaceState :=
  { fileExists := false, fetches := 0, pcA := 0, pcB := 0,
    loadedFromDiskA := false, loadedFromDiskB := false }

/-- One scheduled step of one task: phase 0 reads the cache file and
either finishes from disk or suspends at the fetch; phase 1 performs the
network request; phase 2 writes the file (creating it when absent) and
finishes. A finished task does nothing. -/
def taskStep (file : Bool) (fetches pc : Nat) (loaded : Bool) :
    Bool × Nat × Nat × Bool :=
  if pc = 0 then
    if file then (file, fetches, 3, true)
    else (file, fetches, 1, loaded)
  else if pc = 1 then (file, fetches + 1, 2, loaded)
  else if pc = 2 then (true, fetches, 3, loaded)
  else (file, fetches, pc, loaded)

/-- Run one step of task A (true) or task B (false). -/
def raceStep (s : CacheRaceState) (isA : Bool) : CacheRaceState :=
  if isA then
    match taskStep s.fileExists s.fetches s.pcA s.loadedFromDiskA with
    | (f, n, pc, ld) =>
        { s with fileExists := f, fetches := n, pcA := pc, loadedFromDiskA := ld }
  else
    match taskStep s.fileExists s.fetches s.pcB s.loadedFromDiskB with
    | (f, n, pc, ld) =>
        { s with fileExists := f, fetches := n, pcB := pc, loadedFromDiskB := ld }

/-- Run a whole schedule. -/
def runRace (sched : List Bool) : CacheRaceState :=
  sched.foldl raceStep initRaceState

/-! ## Claims -/

/-- Claim C1, counterexample: for a domain whose robots.txt fetch returns
HTTP 404, resolution does not produce an allow-all zero-delay policy; it
raises UnboundLocalError out of the finally block (one warning logged
first), and the parser object left behind is unparsed, so the allow check
answers False, not True, for a concrete path and user agent. -/
theorem c1_counterexample :
    getRobotRules (pyStr "*") none (NetOutcome.resp 404 (pyStr "nope"))
      = ResolveResult.raised (PyError.unboundLocalError "content") true 1
    ∧ canFetch freshRFP (pyStr "*") (pyStr "/any") = false := by
  constructor
  · rfl
  · rfl

/-- Claim C1, amended: for every domain whose robots.txt cannot be fetched
(non-200 response, timeout, or client error), _get_robot_rules raises
UnboundLocalError for the local `content` instead of returning (with one
warning logged first in the non-200 case and none in the timeout and
client-error cases), and the gate fails closed rather than open: the
unparsed RobotFileParser denies every path for every user agent, and the
crawl delay is never set. -/
theorem c1_amended :
    (∀ (status : Nat) (body ua : Str), status ≠ 200 →
       getRobotRules ua none (NetOutcome.resp status body)
         = ResolveResult.raised (PyError.unboundLocalError "content") true 1)
    ∧ (∀ ua : Str, getRobotRules ua none NetOutcome.timeout
         = ResolveResult.raised (PyError.unboundLocalError "content") true 0)
    ∧ (∀ ua : Str, getRobotRules ua none NetOutcome.clientError
         = ResolveResult.raised (PyError.unboundLocalError "content") true 0)
    ∧ (∀ ua url : Str, canFetch freshRFP ua url = false) := by
  refine ⟨?_, fun ua => rfl, fun ua => rfl, fun ua url => rfl⟩
  intro status body ua h
  simp [getRobotRules, h]

/-- Witness for the amended claim C1 at status 500. -/
theorem c1_amended_witness :
    getRobotRules (pyStr "*") none (NetOutcome.resp 500 (pyStr "x"))
      = ResolveResult.raised (PyError.unboundLocalError "content") true 1
    ∧ canFetch freshRFP (pyStr "*") (pyStr "/p") = false :=
  ⟨c1_amended.1 500 (pyStr "x") (pyStr "*") (by decide),
   c1_amended.2.2.2 (pyStr "*") (pyStr "/p")⟩

/-- Claim C2 (code bug): the claim says resolution never raises for
robots-related failures, but the code raises on each failure family. At
the concrete failing inputs: an HTTP 503 response makes the finally block
raise UnboundLocalError for `content`; a timeout does the same (after the
handler itself dies on `e.__qualname__`); and a successful 200 fetch of a
robots body with no Crawl-delay directive raises TypeError at
`int(self.rp.crawl_delay(...))`. -/
theorem c2_code_bug :
    getRobotRules (pyStr "*") none (NetOutcome.resp 503 (pyStr ""))
      = ResolveResult.raised (PyError.unboundLocalError "content") true 1
    ∧ getRobotRules (pyStr "*") none NetOutcome.timeout
      = ResolveResult.raised (PyError.unboundLocalError "content") true 0
    ∧ getRobotRules (pyStr "*") none
        (NetOutcome.resp 200 (pyStr "User-agent: *\nAllow: /"))
      = ResolveResult.raised
          (PyError.typeError "int() argument must not be NoneType") true 0 := by
  refine ⟨rfl, rfl, ?_⟩
  decide

/-- Claim C3, counterexample: with the rules `Disallow: /a` then
`Allow: /a/public` the claim asserts that "/a/public/x" is allowed
(longest match wins); urllib.robotparser instead applies the first
matching rule in declaration order, so the check returns False. -/
theorem c3_counterexample :
    canFetch (parseBody (pyStr "User-agent: *\nDisallow: /a\nAllow: /a/public"))
      (pyStr "*") (pyStr "/a/public/x") = false := by
  decide

/-- Claim C3, amended: the path check uses first-match-wins in declaration
order, not longest-match-wins. With `Disallow: /a` declared before
`Allow: /a/public`, both "/a/public/x" and "/a/private" are disallowed;
with the Allow line declared first, "/a/public/x" is allowed and
"/a/private" is disallowed. -/
theorem c3_amended :
    canFetch (parseBody (pyStr "User-agent: *\nDisallow: /a\nAllow: /a/public"))
      (pyStr "*") (pyStr "/a/public/x") = false
    ∧ canFetch (parseBody (pyStr "User-agent: *\nDisallow: /a\nAllow: /a/public"))
      (pyStr "*") (pyStr "/a/private") = false
    ∧ canFetch (parseBody (pyStr "User-agent: *\nAllow: /a/public\nDisallow: /a"))
      (pyStr "*") (pyStr "/a/public/x") = true
    ∧ canFetch (parseBody (pyStr "User-agent: *\nAllow: /a/public\nDisallow: /a"))
      (pyStr "*") (pyStr "/a/private") = false := by
  decide

/-- Claim C4 (code bug): for a successfully fetched robots body with no
Crawl-delay directive for the matching user agent, the parser yields None
for the crawl delay, and line 159 (`int(self.rp.crawl_delay(...))`)
raises TypeError instead of resolving the delay to 0 as the claim
states. -/
theorem c4_code_bug :
    crawlDelay (parseBody (pyStr "User-agent: *\nDisallow: /private"))
      (pyStr "*") = none
    ∧ getRobotRules (pyStr "*") none
        (NetOutcome.resp 200 (pyStr "User-agent: *\nDisallow: /private"))
      = ResolveResult.raised
          (PyError.typeError "int() argument must not be NoneType") true 0 := by
  decide

/-- Claim C5 (code bug): with policy crawl_delay 2 the claim says
override=5 yields delay 5 and override=-1 yields delay 2; in the code any
truthy override makes the delay expression evaluate math.ceil, and the
module does not import math, so both calls raise NameError instead (a
zero override falls back to the policy delay because the conditional
short-circuits before touching math.ceil). -/
theorem c5_code_bug :
    navigateTo (parseBody (pyStr "User-agent: *\nCrawl-delay: 2"))
      (pyStr "*") (some 2) (pyStr "/x") (some 2) (some 5)
      = NavResult.raised (PyError.nameError "math")
    ∧ navigateTo (parseBody (pyStr "User-agent: *\nCrawl-delay: 2"))
      (pyStr "*") (some 2) (pyStr "/x") (some 2) (some (-1))
      = NavResult.raised (PyError.nameError "math")
    ∧ navigateTo (parseBody (pyStr "User-agent: *\nCrawl-delay: 2"))
      (pyStr "*") (some 2) (pyStr "/x") (some 2) (some 0)
      = NavResult.navigated 2 (pyStr "/x") := by
  decide

/-- Claim C6, counterexample: a navigation of an allowed URL with
crawl_delay 3 and the default idx=None proceeds with no sleep at all, so
the gate does not suspend for the effective delay on every such
navigation. -/
theorem c6_counterexample :
    canFetch (parseBody (pyStr "User-agent: *\nCrawl-delay: 3"))
      (pyStr "*") (pyStr "/page") = true
    ∧ navigateTo (parseBody (pyStr "User-agent: *\nCrawl-delay: 3"))
      (pyStr "*") (some 3) (pyStr "/page") none none
      = NavResult.navigated 0 (pyStr "/page") := by
  decide

/-- Claim C6, amended: for an allowed URL (without the "%2C" substring)
and no override, the async navigate_to suspends for the positive crawl
delay only when a request index is supplied and greater than 1; with
idx=None, or an index of at most 1, it proceeds immediately with no
sleep. -/
theorem c6_amended (rp : RobotFileParser) (ua url : Str) (d i : Int)
    (hu : containsSub (pyStr "%2C") url = false)
    (hf : canFetch rp ua url = true)
    (hd : 0 < d) :
    (navigateTo rp ua (some d) url (some i) none
       = if i > 1 then NavResult.navigated d url
         else NavResult.navigated 0 url)
    ∧ navigateTo rp ua (some d) url none none
       = NavResult.navigated 0 url := by
  constructor
  · simp [navigateTo, hu, hf, navDelayFromPolicy, hd]
  · simp [navigateTo, hu, hf]

/-- Witness for the amended claim C6: delay 3 honoured at idx 2, skipped
at idx None. -/
theorem c6_amended_witness :
    navigateTo (parseBody (pyStr "User-agent: *\nCrawl-delay: 3"))
      (pyStr "*") (some 3) (pyStr "/page") (some 2) none
      = NavResult.navigated 3 (pyStr "/page")
    ∧ navigateTo (parseBody (pyStr "User-agent: *\nCrawl-delay: 3"))
      (pyStr "*") (some 3) (pyStr "/page") none none
      = NavResult.navigated 0 (pyStr "/page") := by
  have h := c6_amended (parseBody (pyStr "User-agent: *\nCrawl-delay: 3"))
    (pyStr "*") (pyStr "/page") 3 2 (by decide) (by decide) (by decide)
  have h1 := h.1
  rw [if_pos (by decide : (2 : Int) > 1)] at h1
  exact ⟨h1, h.2⟩

/-- Claim C7, counterexample: a disallowed URL that contains the "%2C"
substring does not produce the promised warning-and-skip; navigate_to
raises NameError at re.sub before the robots check is reached. -/
theorem c7_counterexample :
    canFetch (parseBody (pyStr "User-agent: *\nDisallow: /"))
      (pyStr "*") (pyStr "/x%2Cy") = false
    ∧ navigateTo (parseBody (pyStr "User-agent: *\nDisallow: /"))
      (pyStr "*") (some 0) (pyStr "/x%2Cy") none none
      = NavResult.raised (PyError.nameError "re") := by
  decide

/-- Claim C7, amended: for every navigation whose URL does not contain
"%2C" and is disallowed by the robots policy, navigate_to logs one
warning and returns before any sleep and before page.goto; a disallowed
URL containing "%2C" instead raises NameError (the re module is not
imported), likewise without sleeping or issuing the fetch. -/
theorem c7_amended (rp : RobotFileParser) (ua : Str) (cd : Option Int)
    (url : Str) (idx ov : Option Int)
    (hu : containsSub (pyStr "%2C") url = false)
    (hf : canFetch rp ua url = false) :
    navigateTo rp ua cd url idx ov = NavResult.skipped 1 := by
  simp [navigateTo, hu, hf]

/-- Witness for the amended claim C7 on a concrete disallowed URL. -/
theorem c7_amended_witness :
    navigateTo (parseBody (pyStr "User-agent: *\nDisallow: /"))
      (pyStr "*") (some 0) (pyStr "/x") none none
      = NavResult.skipped 1 :=
  c7_amended (parseBody (pyStr "User-agent: *\nDisallow: /"))
    (pyStr "*") (some 0) (pyStr "/x") none none (by decide) (by decide)

/-- Claim C8, counterexample: two concurrent resolutions of the same
domain with no cache entry do not coalesce into one fetch. In the
interleaving where both tasks pass the cache-file check before either
completes its fetch (the check is synchronous and the fetch is an await
point), both tasks issue a network request: two fetches, not exactly
one. -/
theorem c8_counterexample :
    runRace [true, false, true, false, true, false]
      = { fileExists := true, fetches := 2, pcA := 3, pcB := 3,
          loadedFromDiskA := false, loadedFromDiskB := false }
    ∧ (runRace [true, false, true, false, true, false]).fetches ≠ 1 := by
  decide

/-- Claim C8, amended: concurrent resolutions of the same domain do not
coalesce: whenever both callers pass the cache-existence check before
either has written the robots file, each performs its own network fetch
(two requests for two callers); a single network fetch happens only when
one resolution runs to completion first, in which case the later caller
loads the file from the disk cache and fetches nothing. -/
theorem c8_amended :
    (runRace [true, false, true, false, true, false]).fetches = 2
    ∧ runRace [true, true, true, false]
        = { fileExists := true, fetches := 1, pcA := 3, pcB := 3,
            loadedFromDiskA := false, loadedFromDiskB := true } := by
  decide

/-- Claim C9 (confirmed): navigate_to raises NameError whenever the URL
contains the substring "%2C" (the cleanup branch references re.sub and
the module does not import re), and raises NameError whenever the delay
computation is reached (URL allowed, no "%2C", idx greater than 1) with a
truthy crawl_override (the delay expression references math.ceil and the
module does not import math). -/
theorem c9_theorem :
    (∀ (rp : RobotFileParser) (ua : Str) (cd : Option Int) (url : Str)
       (idx ov : Option Int),
       containsSub (pyStr "%2C") url = true →
       navigateTo rp ua cd url idx ov = NavResult.raised (PyError.nameError "re"))
    ∧ (∀ (rp : RobotFileParser) (ua : Str) (cd : Option Int) (url : Str)
         (i c : Int),
         containsSub (pyStr "%2C") url = false →
         canFetch rp ua url = true →
         1 < i → c ≠ 0 →
         navigateTo rp ua cd url (some i) (some c)
           = NavResult.raised (PyError.nameError "math")) := by
  constructor
  · intro rp ua cd url idx ov h
    simp [navigateTo, h]
  · intro rp ua cd url i c hu hf hi hc
    simp [navigateTo, hu, hf, hi, hc]

/-- Witness for claim C9: a URL containing "%2C" raises NameError for re,
and an allowed URL at idx 2 with override 5 raises NameError for math. -/
theorem c9_theorem_witness :
    navigateTo freshRFP (pyStr "*") none (pyStr "/a%2Cb") none none
      = NavResult.raised (PyError.nameError "re")
    ∧ navigateTo (parseBody (pyStr "")) (pyStr "*") (some 2) (pyStr "/x")
        (some 2) (some 5)
      = NavResult.raised (PyError.nameError "math") :=
  ⟨c9_theorem.1 freshRFP (pyStr "*") none (pyStr "/a%2Cb") none none (by decide),
   c9_theorem.2 (parseBody (pyStr "")) (pyStr "*") (some 2) (pyStr "/x") 2 5
     (by decide) (by decide) (by decide) (by decide)⟩

/-- The disk state after the repository has cached the robots.txt of
https://example.com with the given body: exactly the cache file for the
extracted name "example" exists. -/
def diskAfterCom (projectRoot : Str) (body : Str) : Str → Option Str :=
  fun p =>
    if p = robotsTxtFilepath projectRoot
          (extractDomainNameFromUrl (pyStr "https://example.com"))
    then some body else none

/-- Claim C10 (confirmed): the cache key is not injective in the domain.
Both https://example.com and https://example.org extract to the name
"example", hence map to the same cache file path for every project root,
and with the robots.txt of example.com already cached, a resolution for
example.org reuses that cached content with no network fetch: it returns
the policy parsed from the example.com body (crawl delay 7, and its
Disallow rule) regardless of what the network would have answered. -/
theorem c10_theorem :
    extractDomainNameFromUrl (pyStr "https://example.com") = pyStr "example"
    ∧ extractDomainNameFromUrl (pyStr "https://example.org") = pyStr "example"
    ∧ (∀ projectRoot : Str,
        robotsTxtFilepath projectRoot
            (extractDomainNameFromUrl (pyStr "https://example.com"))
          = robotsTxtFilepath projectRoot
            (extractDomainNameFromUrl (pyStr "https://example.org")))
    ∧ (∀ (projectRoot : Str) (net : NetOutcome),
        resolveViaCache projectRoot
            (diskAfterCom projectRoot
              (pyStr "User-agent: *\nDisallow: /only-com\nCrawl-delay: 7"))
            (pyStr "https://example.org") (pyStr "*") net
          = ResolveResult.ok
              { rp := parseBody
                  (pyStr "User-agent: *\nDisallow: /only-com\nCrawl-delay: 7"),
                request_rate := ReqRateVal.zero, crawl_delay := 7,
                fetched := false, wroteDisk := none, warnings := 0 }) := by
  refine ⟨by decide, by decide, ?_, ?_⟩
  · intro projectRoot
    rw [show extractDomainNameFromUrl (pyStr "https://example.com")
          = extractDomainNameFromUrl (pyStr "https://example.org") from by decide]
  · intro projectRoot net
    unfold resolveViaCache diskAfterCom
    rw [show extractDomainNameFromUrl (pyStr "https://example.org")
          = extractDomainNameFromUrl (pyStr "https://example.com") from by decide]
    rw [if_pos rfl]
    rfl

end WebScraper
